import Mathlib

/-
Verification of the search-indexer batch engine, request limiter, cluster
lifecycle and cluster cache against their natural-language specification.

The definitions below are a shallow embedding of the Go sources:
  - pkg/database/connection.go   (batchWithRetry: Queue, sendBatch, flush)
  - pkg/server/requestLimiter.go (requestLimiterMiddleware)
  - pkg/database/upsertCluster.go (DeleteClusterAndResources, deleteWithRetry,
    UpsertCluster, clusterInDB, clusterPropsUpToDate)
  - the historical DeleteClusterTxn revision (three statements in one
    transaction, with a commit issued after an error)
Database interaction is modelled by an oracle function from the submitted
snapshot to the exec/close results of the driver, and by explicit result
parameters for single statements.  Goroutine dispatch is modelled by
recording dispatched snapshots.  Go panics are modelled by an explicit
outcome constructor.
-/

namespace SearchIndexer

/-- Substring test on lists, used to model strings.Contains of Go. -/
def listHasPrefix {α : Type} [DecidableEq α] : List α → List α → Bool
  | _, [] => true
  | [], _ :: _ => false
  | a :: as, b :: bs => decide (a = b) && listHasPrefix as bs

/-- listHasSub l pat is true iff pat occurs as a contiguous sublist of l. -/
def listHasSub {α : Type} [DecidableEq α] : List α → List α → Bool
  | [], pat => pat.isEmpty
  | a :: t, pat => listHasPrefix (a :: t) pat || listHasSub t pat

/-- Model of strings.Contains from the Go standard library. -/
def strContains (s pat : String) : Bool :=
  listHasSub s.data pat.data

/-- Classification of a driver close error as connection-fatal,
from sendBatch in connection.go: substring match on
"unexpected EOF" or "failed to connect". -/
def isConnFatal (msg : String) : Bool :=
  strContains msg "unexpected EOF" || strContains msg "failed to connect"

/-- One entry of a response error array (model.SyncError). -/
structure SyncError where
  resourceUID : String
  message : String
deriving DecidableEq, Repr

/-- The five response error arrays of model.SyncResponse touched by the
batch engine. -/
structure SyncResponse where
  addErrors : List SyncError
  updateErrors : List SyncError
  deleteErrors : List SyncError
  addEdgeErrors : List SyncError
  deleteEdgeErrors : List SyncError
deriving DecidableEq, Repr

/-- A fresh response accumulator. -/
def emptySyncResponse : SyncResponse :=
  { addErrors := [], updateErrors := [], deleteErrors := []
  , addEdgeErrors := [], deleteEdgeErrors := [] }

/-- batchItem from connection.go.  The args of interface type are modelled
as strings, which is what the callers enqueue. -/
structure BatchItem where
  query : String
  args : List String
  action : String
  uid : String
deriving DecidableEq, Repr

/-- State of batchWithRetry from connection.go.  The pgx pool and the
wait group are not data; the go-routine dispatch of a snapshot is recorded
in the dispatched field.  batchSize comes from the DAO. -/
structure BatchWithRetry where
  connError : Option String
  batchSize : Nat
  items : List BatchItem
  resourceInsertQ : List (List String)
  edgeInsertQ : List (List String)
  syncResponse : SyncResponse
  dispatched : List (List BatchItem)
deriving DecidableEq, Repr

/-- Model of the DAO record: only batchSize matters to the batch engine. -/
structure DAO where
  batchSize : Nat
deriving DecidableEq, Repr

/-- NewDAO from connection.go creates the DAO with default values. -/
def NewDAO : DAO := { batchSize := 500 }

/-- NewBatchWithRetry from connection.go. -/
def NewBatchWithRetry (dao : DAO) : BatchWithRetry :=
  { connError := none
  , batchSize := dao.batchSize
  , items := []
  , resourceInsertQ := []
  , edgeInsertQ := []
  , syncResponse := emptySyncResponse
  , dispatched := [] }

/-- Result of one driver round trip: the error of br.Exec and the error of
br.Close, as observed by sendBatch. -/
structure DBResult where
  execErr : Option String
  closeErr : Option String
deriving DecidableEq, Repr

/-- Outcome of one sendBatch call: the returned error value, or a Go
runtime panic. -/
inductive BatchOutcome where
  | ok
  | err (msg : String)
  | panicked
deriving DecidableEq, Repr

/-- True iff the outcome is a returned (non-nil) error. -/
def isErrOutcome : BatchOutcome → Bool
  | BatchOutcome.err _ => true
  | _ => false

/-- The fixed message recorded with every per-row error in sendBatch. -/
def rowErrorMessage : String :=
  "Resource generated an error while updating the database."

/-- The error-array selection and append of the single-item failure branch
of sendBatch.  The switch covers exactly the five per-row actions; for any
other action the Go code leaves the errorArray pointer nil and the
subsequent append dereferences it (modelled by none, a panic). -/
def recordSyncError (r : SyncResponse) (action uid : String) : Option SyncResponse :=
  match action with
  | "addResource" =>
      some { r with addErrors := r.addErrors ++ [{ resourceUID := uid, message := rowErrorMessage }] }
  | "updateResource" =>
      some { r with updateErrors := r.updateErrors ++ [{ resourceUID := uid, message := rowErrorMessage }] }
  | "deleteResource" =>
      some { r with deleteErrors := r.deleteErrors ++ [{ resourceUID := uid, message := rowErrorMessage }] }
  | "addEdge" =>
      some { r with addEdgeErrors := r.addEdgeErrors ++ [{ resourceUID := uid, message := rowErrorMessage }] }
  | "deleteEdge" =>
      some { r with deleteEdgeErrors := r.deleteEdgeErrors ++ [{ resourceUID := uid, message := rowErrorMessage }] }
  | _ => none

/-- sendBatch from connection.go, fuelled.  The fuel only bounds the
recursion depth of the binary-search retry; sendBatch below instantiates
it with the snapshot length, which the retry never exhausts (each half of
a snapshot of two or more items is strictly shorter).  An empty failing
snapshot, on which the Go code would recurse forever, burns its fuel and
returns the exec error; no dispatch site produces an empty snapshot. -/
def sendBatchGo (db : List BatchItem → DBResult) :
    Nat → List BatchItem → BatchWithRetry → BatchWithRetry × BatchOutcome
  | fuel, items, b =>
    match (db items).closeErr with
    | some ce =>
      if isConnFatal ce then
        ({ b with connError := some ce }, BatchOutcome.err "Failed to connect to database.")
      else (b, BatchOutcome.err ce)
    | none =>
      match (db items).execErr with
      | none => (b, BatchOutcome.ok)
      | some e =>
        match items with
        | [item] =>
          match recordSyncError b.syncResponse item.action item.uid with
          | some r => ({ b with syncResponse := r }, BatchOutcome.ok)
          | none => (b, BatchOutcome.panicked)
        | _ =>
          match fuel with
          | 0 => (b, BatchOutcome.err e)
          | Nat.succ f =>
            if 2 ≤ items.length then
              let r1 := sendBatchGo db f (items.take (items.length / 2)) b
              if r1.2 = BatchOutcome.panicked then (r1.1, BatchOutcome.panicked)
              else
                let r2 := sendBatchGo db f (items.drop (items.length / 2)) r1.1
                if r2.2 = BatchOutcome.panicked then (r2.1, BatchOutcome.panicked)
                else if isErrOutcome r1.2 && isErrOutcome r2.2 then (r2.1, BatchOutcome.ok)
                else (r2.1, BatchOutcome.err e)
            else (b, BatchOutcome.err e)

/-- sendBatch from connection.go: the fuelled recursion started with
enough fuel for the whole binary search. -/
def sendBatch (db : List BatchItem → DBResult) (items : List BatchItem)
    (b : BatchWithRetry) : BatchWithRetry × BatchOutcome :=
  sendBatchGo db items.length items b

/-- Row rendering of a queued resource insert inside Queue:
Sprintf with format string using no blank after the commas.
The enqueued resource args always have three entries. -/
def fmtRowResQ (args : List String) : String :=
  match args with
  | [a, b, c] => "(\x27" ++ a ++ "\x27,\x27" ++ b ++ "\x27,\x27" ++ c ++ "\x27)"
  | _ => "(BADARGS)"

/-- Row rendering of a queued edge insert inside Queue (six columns,
no blank after the commas). -/
def fmtRowEdgeQ (args : List String) : String :=
  match args with
  | [a, b, c, d, e, f] =>
      "(\x27" ++ a ++ "\x27,\x27" ++ b ++ "\x27,\x27" ++ c ++ "\x27,\x27" ++ d
        ++ "\x27,\x27" ++ e ++ "\x27,\x27" ++ f ++ "\x27)"
  | _ => "(BADARGS)"

/-- Row rendering of a resource insert inside flush: the format string
there has a blank after each comma. -/
def fmtRowResF (args : List String) : String :=
  match args with
  | [a, b, c] => "(\x27" ++ a ++ "\x27, \x27" ++ b ++ "\x27, \x27" ++ c ++ "\x27)"
  | _ => "(BADARGS)"

/-- Row rendering of an edge insert inside flush (blank after each comma). -/
def fmtRowEdgeF (args : List String) : String :=
  match args with
  | [a, b, c, d, e, f] =>
      "(\x27" ++ a ++ "\x27, \x27" ++ b ++ "\x27, \x27" ++ c ++ "\x27, \x27" ++ d
        ++ "\x27, \x27" ++ e ++ "\x27, \x27" ++ f ++ "\x27)"
  | _ => "(BADARGS)"

/-- The bulk resources INSERT item built by Queue when resourceInsertQ
reaches batchSize (values joined with a comma and a blank). -/
def bulkResourcesItemQ (q : List (List String)) : BatchItem :=
  { query := "INSERT INTO search.resources VALUES "
      ++ String.intercalate ", " (q.map fmtRowResQ) ++ ";"
  , args := []
  , action := "bulkResources"
  , uid := "" }

/-- The bulk edges INSERT item built by Queue when edgeInsertQ reaches
batchSize (values joined with a bare comma). -/
def bulkEdgesItemQ (q : List (List String)) : BatchItem :=
  { query := "INSERT INTO search.edges VALUES "
      ++ String.intercalate "," (q.map fmtRowEdgeQ) ++ ";"
  , args := []
  , action := "bulkInsertEdges"
  , uid := "" }

/-- The residual bulk resources INSERT item built by flush. -/
def bulkResourcesItemF (q : List (List String)) : BatchItem :=
  { query := "INSERT INTO search.resources VALUES "
      ++ String.intercalate ", " (q.map fmtRowResF) ++ ";"
  , args := []
  , action := "bulkResources"
  , uid := "" }

/-- The residual bulk edges INSERT item built by flush. -/
def bulkEdgesItemF (q : List (List String)) : BatchItem :=
  { query := "INSERT INTO search.edges VALUES "
      ++ String.intercalate "," (q.map fmtRowEdgeF) ++ ";"
  , args := []
  , action := "bulkInsertEdges"
  , uid := "" }

/-- The tail of Queue from connection.go: when the pending item count
reaches batchSize, snapshot the items, reset the queue and dispatch the
snapshot to a worker go-routine (recorded in dispatched). -/
def dispatchCheck (b : BatchWithRetry) : BatchWithRetry :=
  if b.batchSize ≤ b.items.length then
    { b with items := [], dispatched := b.dispatched ++ [b.items] }
  else b

/-- Queue from connection.go.  Returns the updated engine state and the
returned error value. -/
def Queue (b : BatchWithRetry) (item : BatchItem) : BatchWithRetry × Option String :=
  match b.connError with
  | some e => (b, some e)
  | none =>
    if item.action = "addResource" then
      if b.batchSize ≤ (b.resourceInsertQ ++ [item.args]).length then
        (dispatchCheck { b with
            items := b.items ++ [bulkResourcesItemQ (b.resourceInsertQ ++ [item.args])]
          , resourceInsertQ := [] }, none)
      else (dispatchCheck { b with resourceInsertQ := b.resourceInsertQ ++ [item.args] }, none)
    else if item.action = "addEdge" then
      if b.batchSize ≤ (b.edgeInsertQ ++ [item.args]).length then
        (dispatchCheck { b with
            items := b.items ++ [bulkEdgesItemQ (b.edgeInsertQ ++ [item.args])]
          , edgeInsertQ := [] }, none)
      else (dispatchCheck { b with edgeInsertQ := b.edgeInsertQ ++ [item.args] }, none)
    else (dispatchCheck { b with items := b.items ++ [item] }, none)

/-- flush from connection.go: materialize the residual insert queues into
bulk items, then dispatch the remaining snapshot. -/
def flush (b : BatchWithRetry) : BatchWithRetry :=
  let b1 :=
    if 0 < b.resourceInsertQ.length then
      { b with items := b.items ++ [bulkResourcesItemF b.resourceInsertQ], resourceInsertQ := [] }
    else b
  let b2 :=
    if 0 < b1.edgeInsertQ.length then
      { b1 with items := b1.items ++ [bulkEdgesItemF b1.edgeInsertQ], edgeInsertQ := [] }
    else b1
  if 0 < b2.items.length then
    { b2 with items := [], dispatched := b2.dispatched ++ [b2.items] }
  else b2

/-- All statements handed to the engine so far, dispatched snapshots
first, then the pending snapshot, in order. -/
def allItems (b : BatchWithRetry) : List BatchItem :=
  b.dispatched.flatten ++ b.items

/-- Dispatching a full snapshot moves pending items into the dispatched
log without changing their set or order. -/
theorem allItems_dispatchCheck (b : BatchWithRetry) :
    allItems (dispatchCheck b) = allItems b := by
  unfold dispatchCheck
  split <;> simp [allItems, List.flatten_append]

/-- dispatchCheck leaves the resource insert accumulator alone. -/
theorem dispatchCheck_resourceInsertQ (b : BatchWithRetry) :
    (dispatchCheck b).resourceInsertQ = b.resourceInsertQ := by
  unfold dispatchCheck
  split <;> rfl

/-- dispatchCheck leaves the edge insert accumulator alone. -/
theorem dispatchCheck_edgeInsertQ (b : BatchWithRetry) :
    (dispatchCheck b).edgeInsertQ = b.edgeInsertQ := by
  unfold dispatchCheck
  split <;> rfl

/-- The fuel of sendBatchGo is irrelevant as long as it covers the length
of the snapshot, because each half of a snapshot of two or more items is
strictly shorter. -/
theorem sendBatchGo_fuel (db : List BatchItem → DBResult) :
    ∀ f1 f2 : Nat, ∀ items : List BatchItem, ∀ b : BatchWithRetry,
      items.length ≤ f1 → items.length ≤ f2 →
      sendBatchGo db f1 items b = sendBatchGo db f2 items b := by
  intro f1
  induction f1 with
  | zero =>
    intro f2 items b h1 h2
    have hi : items = [] := List.length_eq_zero.mp (Nat.le_zero.mp h1)
    subst hi
    rw [sendBatchGo, sendBatchGo]
    cases (db []).closeErr with
    | some ce => rfl
    | none =>
      cases (db []).execErr with
      | none => rfl
      | some e => cases f2 <;> simp
  | succ f1' ih =>
    intro f2 items b h1 h2
    rw [sendBatchGo, sendBatchGo]
    cases (db items).closeErr with
    | some ce => rfl
    | none =>
      cases (db items).execErr with
      | none => rfl
      | some e =>
        match items, h1, h2 with
        | [], _, _ =>
          cases f2 <;> simp
        | [item], _, _ => rfl
        | a :: a' :: rest, h1, h2 =>
          cases f2 with
          | zero => simp at h2
          | succ f2' =>
            simp only [List.length_cons] at h1 h2 ⊢
            have hlen : 2 ≤ rest.length + 1 + 1 := by omega
            have htk : ((a :: a' :: rest).take ((rest.length + 1 + 1) / 2)).length ≤ f1' := by
              simp only [List.length_take, List.length_cons]
              omega
            have htk2 : ((a :: a' :: rest).take ((rest.length + 1 + 1) / 2)).length ≤ f2' := by
              simp only [List.length_take, List.length_cons]
              omega
            have hdr : ((a :: a' :: rest).drop ((rest.length + 1 + 1) / 2)).length ≤ f1' := by
              simp only [List.length_drop, List.length_cons]
              omega
            have hdr2 : ((a :: a' :: rest).drop ((rest.length + 1 + 1) / 2)).length ≤ f2' := by
              simp only [List.length_drop, List.length_cons]
              omega
            have e1 := ih f2' ((a :: a' :: rest).take ((rest.length + 1 + 1) / 2)) b htk htk2
            have e2 := ih f2' ((a :: a' :: rest).drop ((rest.length + 1 + 1) / 2))
              (sendBatchGo db f2' ((a :: a' :: rest).take ((rest.length + 1 + 1) / 2)) b).1 hdr hdr2
            simp only [List.length_cons, e1, e2]

/-- Unfolding sendBatch on a failing snapshot of two or more items: the
binary-search retry on the two halves, with the engine state threaded
through the first half into the second. -/
theorem sendBatch_split (db : List BatchItem → DBResult) (items : List BatchItem)
    (b : BatchWithRetry) (e : String)
    (hce : (db items).closeErr = none) (hee : (db items).execErr = some e)
    (hlen : 2 ≤ items.length) :
    sendBatch db items b =
      (if (sendBatch db (items.take (items.length / 2)) b).2 = BatchOutcome.panicked then
        ((sendBatch db (items.take (items.length / 2)) b).1, BatchOutcome.panicked)
      else if (sendBatch db (items.drop (items.length / 2))
            (sendBatch db (items.take (items.length / 2)) b).1).2 = BatchOutcome.panicked then
        ((sendBatch db (items.drop (items.length / 2))
            (sendBatch db (items.take (items.length / 2)) b).1).1, BatchOutcome.panicked)
      else if isErrOutcome (sendBatch db (items.take (items.length / 2)) b).2
          && isErrOutcome (sendBatch db (items.drop (items.length / 2))
                (sendBatch db (items.take (items.length / 2)) b).1).2 then
        ((sendBatch db (items.drop (items.length / 2))
            (sendBatch db (items.take (items.length / 2)) b).1).1, BatchOutcome.ok)
      else
        ((sendBatch db (items.drop (items.length / 2))
            (sendBatch db (items.take (items.length / 2)) b).1).1, BatchOutcome.err e)) := by
  match items, hlen with
  | a :: a' :: rest, _ =>
    show sendBatchGo db (rest.length + 1 + 1) (a :: a' :: rest) b = _
    rw [sendBatchGo]
    rw [hce, hee]
    have htk : ((a :: a' :: rest).take ((rest.length + 1 + 1) / 2)).length ≤ rest.length + 1 := by
      simp only [List.length_take, List.length_cons]
      omega
    have hdr : ((a :: a' :: rest).drop ((rest.length + 1 + 1) / 2)).length ≤ rest.length + 1 := by
      simp only [List.length_drop, List.length_cons]
      omega
    have e1 : sendBatchGo db (rest.length + 1) ((a :: a' :: rest).take ((rest.length + 1 + 1) / 2)) b
        = sendBatch db ((a :: a' :: rest).take ((rest.length + 1 + 1) / 2)) b :=
      sendBatchGo_fuel db (rest.length + 1) _ _ b htk (Nat.le_refl _)
    have e2 : ∀ b' : BatchWithRetry,
        sendBatchGo db (rest.length + 1) ((a :: a' :: rest).drop ((rest.length + 1 + 1) / 2)) b'
        = sendBatch db ((a :: a' :: rest).drop ((rest.length + 1 + 1) / 2)) b' := fun b' =>
      sendBatchGo_fuel db (rest.length + 1) _ _ b' hdr (Nat.le_refl _)
    simp only [List.length_cons, e1, e2]
    have h2 : 2 ≤ rest.length + 1 + 1 := by omega
    simp only [if_pos h2]

/-- Unfolding sendBatch when closing the batch result returns an error:
the close error is examined before any exec-error processing. -/
theorem sendBatch_closeErr (db : List BatchItem → DBResult) (items : List BatchItem)
    (b : BatchWithRetry) (ce : String) (hce : (db items).closeErr = some ce) :
    sendBatch db items b =
      (if isConnFatal ce then
        ({ b with connError := some ce }, BatchOutcome.err "Failed to connect to database.")
      else (b, BatchOutcome.err ce)) := by
  show sendBatchGo db items.length items b = _
  rw [sendBatchGo, hce]

/-- Unfolding sendBatch on a failing snapshot of exactly one item with a
clean close: the per-row error recording branch. -/
theorem sendBatch_single (db : List BatchItem → DBResult) (item : BatchItem)
    (b : BatchWithRetry) (e : String)
    (hce : (db [item]).closeErr = none) (hee : (db [item]).execErr = some e) :
    sendBatch db [item] b =
      (match recordSyncError b.syncResponse item.action item.uid with
       | some r => ({ b with syncResponse := r }, BatchOutcome.ok)
       | none => (b, BatchOutcome.panicked)) := by
  show sendBatchGo db 1 [item] b = _
  rw [sendBatchGo, hce, hee]

/-- Unfolding sendBatch when the round trip succeeds. -/
theorem sendBatch_success (db : List BatchItem → DBResult) (items : List BatchItem)
    (b : BatchWithRetry)
    (hce : (db items).closeErr = none) (hee : (db items).execErr = none) :
    sendBatch db items b = (b, BatchOutcome.ok) := by
  show sendBatchGo db items.length items b = _
  rw [sendBatchGo, hce, hee]

/-- The five per-row actions whose errors have a response error array. -/
def perRowActions : List String :=
  ["addResource", "updateResource", "deleteResource", "addEdge", "deleteEdge"]

/-- The response error array selected by an action (empty for an action
that has none). -/
def errorsOf (r : SyncResponse) (action : String) : List SyncError :=
  match action with
  | "addResource" => r.addErrors
  | "updateResource" => r.updateErrors
  | "deleteResource" => r.deleteErrors
  | "addEdge" => r.addEdgeErrors
  | "deleteEdge" => r.deleteEdgeErrors
  | _ => []

/-- recordSyncError yields none exactly on the actions outside the five
per-row actions. -/
theorem recordSyncError_eq_none_iff (r : SyncResponse) (a u : String) :
    recordSyncError r a u = none ↔ a ∉ perRowActions := by
  constructor
  · intro hnone hmem
    simp only [perRowActions, List.mem_cons, List.not_mem_nil, or_false] at hmem
    rcases hmem with h | h | h | h | h <;>
      (subst h; simp [recordSyncError] at hnone)
  · intro hmem
    unfold recordSyncError
    split
    all_goals first
      | rfl
      | exact absurd (by decide) hmem

/-- Claim C3: if closing a batch result returns an error whose text
contains "unexpected EOF" or "failed to connect", the engine records that
error as connError and aborts that batch; afterwards every Queue call
returns an error immediately without enqueuing the item, and Queue
returns an error in no other case. -/
theorem claim_C3_connError_poisons_queue :
    (∀ (db : List BatchItem → DBResult) (items : List BatchItem) (b : BatchWithRetry) (ce : String),
      (db items).closeErr = some ce → isConnFatal ce = true →
      sendBatch db items b
        = ({ b with connError := some ce }, BatchOutcome.err "Failed to connect to database."))
  ∧ (∀ (b : BatchWithRetry) (item : BatchItem) (e : String),
      b.connError = some e → Queue b item = (b, some e))
  ∧ (∀ (b : BatchWithRetry) (item : BatchItem),
      b.connError = none → (Queue b item).2 = none) := by
  refine ⟨?_, ?_, ?_⟩
  · intro db items b ce hce hfatal
    rw [sendBatch_closeErr db items b ce hce, if_pos hfatal]
  · intro b item e h
    simp [Queue, h]
  · intro b item h
    simp only [Queue, h]
    repeat' split
    all_goals rfl

/-- Witness for claim C3 at concrete inputs. -/
theorem claim_C3_connError_poisons_queue_witness :
    sendBatch (fun _ => { execErr := none, closeErr := some "unexpected EOF" })
        [{ query := "Q", args := [], action := "deleteResource", uid := "u" }]
        (NewBatchWithRetry NewDAO)
      = ({ NewBatchWithRetry NewDAO with connError := some "unexpected EOF" },
         BatchOutcome.err "Failed to connect to database.")
  ∧ Queue { NewBatchWithRetry NewDAO with connError := some "unexpected EOF" }
        { query := "Q", args := [], action := "deleteResource", uid := "u" }
      = ({ NewBatchWithRetry NewDAO with connError := some "unexpected EOF" },
         some "unexpected EOF")
  ∧ (Queue (NewBatchWithRetry NewDAO)
        { query := "Q", args := [], action := "deleteResource", uid := "u" }).2 = none := by
  refine ⟨?_, ?_, ?_⟩
  · exact claim_C3_connError_poisons_queue.1 _ _ _ "unexpected EOF" rfl (by decide)
  · exact claim_C3_connError_poisons_queue.2.1 _ _ "unexpected EOF" rfl
  · exact claim_C3_connError_poisons_queue.2.2 _ _ rfl

/-- First statement of a concrete two-item snapshot used to refute
claim C1 as stated. -/
def exC1Item1 : BatchItem :=
  { query := "DELETE FROM search.resources WHERE uid=$1", args := ["u1"]
  , action := "deleteResource", uid := "u1" }

/-- Second statement of the concrete two-item snapshot. -/
def exC1Item2 : BatchItem :=
  { query := "DELETE FROM search.resources WHERE uid=$1", args := ["u2"]
  , action := "deleteResource", uid := "u2" }

/-- A database oracle that rejects the combined batch (for instance with
a transient error) but accepts each statement alone. -/
def exC1Db : List BatchItem → DBResult := fun items =>
  if items = [exC1Item1, exC1Item2] then { execErr := some "boom", closeErr := none }
  else { execErr := none, closeErr := none }

/-- Claim C1 counterexample: a two-item snapshot fails, both halves of
the retry succeed, yet sendBatch still returns an error, refuting the
claim that it returns without error whenever at least one half succeeds.
The two halves of the snapshot are its first and its second item. -/
theorem claim_C1_counterexample :
    (sendBatch exC1Db ([exC1Item1, exC1Item2].take 1) (NewBatchWithRetry NewDAO)).2
        = BatchOutcome.ok
  ∧ (sendBatch exC1Db ([exC1Item1, exC1Item2].drop 1)
        (sendBatch exC1Db ([exC1Item1, exC1Item2].take 1) (NewBatchWithRetry NewDAO)).1).2
        = BatchOutcome.ok
  ∧ (sendBatch exC1Db [exC1Item1, exC1Item2] (NewBatchWithRetry NewDAO)).2
        = BatchOutcome.err "boom" := by
  decide

/-- Claim C1 (amended): when a dispatched snapshot of two or more items
fails to execute (with a clean close), sendBatch re-dispatches its two
halves, threading the state through the first half; it returns without
error exactly when BOTH halves return errors, and otherwise returns the
original exec error (a panic in a half propagates).  Only a
connection-fatal close error sets connError and aborts the whole batch. -/
theorem claim_C1_bisect_retry_amended :
    (∀ (db : List BatchItem → DBResult) (items : List BatchItem) (b : BatchWithRetry) (e : String),
      (db items).closeErr = none → (db items).execErr = some e → 2 ≤ items.length →
      (sendBatch db items b).2 =
        (if (sendBatch db (items.take (items.length / 2)) b).2 = BatchOutcome.panicked
            ∨ (sendBatch db (items.drop (items.length / 2))
                  (sendBatch db (items.take (items.length / 2)) b).1).2 = BatchOutcome.panicked
         then BatchOutcome.panicked
         else if isErrOutcome (sendBatch db (items.take (items.length / 2)) b).2
             && isErrOutcome (sendBatch db (items.drop (items.length / 2))
                   (sendBatch db (items.take (items.length / 2)) b).1).2
         then BatchOutcome.ok
         else BatchOutcome.err e))
  ∧ (∀ (db : List BatchItem → DBResult) (items : List BatchItem) (b : BatchWithRetry) (ce : String),
      (db items).closeErr = some ce → isConnFatal ce = true →
      sendBatch db items b
        = ({ b with connError := some ce }, BatchOutcome.err "Failed to connect to database.")) := by
  constructor
  · intro db items b e hce hee hlen
    rw [sendBatch_split db items b e hce hee hlen]
    by_cases h1 : (sendBatch db (items.take (items.length / 2)) b).2 = BatchOutcome.panicked
    · simp [h1]
    · by_cases h2 : (sendBatch db (items.drop (items.length / 2))
          (sendBatch db (items.take (items.length / 2)) b).1).2 = BatchOutcome.panicked
      · simp [h1, h2]
      · by_cases h3 : (isErrOutcome (sendBatch db (items.take (items.length / 2)) b).2
            && isErrOutcome (sendBatch db (items.drop (items.length / 2))
                  (sendBatch db (items.take (items.length / 2)) b).1).2) = true
        · simp [h1, h2, h3]
        · simp [h1, h2, h3]
  · intro db items b ce hce hfatal
    rw [sendBatch_closeErr db items b ce hce, if_pos hfatal]

/-- Witness for the amended claim C1 at the concrete refuting snapshot:
both halves succeed, so sendBatch returns the original exec error. -/
theorem claim_C1_bisect_retry_amended_witness :
    (sendBatch exC1Db [exC1Item1, exC1Item2] (NewBatchWithRetry NewDAO)).2
      = BatchOutcome.err "boom" := by
  have h := claim_C1_bisect_retry_amended.1 exC1Db [exC1Item1, exC1Item2]
    (NewBatchWithRetry NewDAO) "boom" (by decide) (by decide) (by decide)
  rw [h]
  decide

/-- A single addResource statement whose execution fails while closing
the batch result also fails with an operational (non-fatal) error. -/
def exC6Item : BatchItem :=
  { query := "INSERT INTO search.resources VALUES ($1,$2,$3)", args := ["u6", "c", "d"]
  , action := "addResource", uid := "u6" }

/-- Oracle for the claim C6 counterexample: exec fails and close returns
an error that is neither "unexpected EOF" nor "failed to connect". -/
def exC6Db : List BatchItem → DBResult :=
  fun _ => { execErr := some "constraint violation", closeErr := some "read timeout" }

/-- Claim C6 counterexample: a single-item snapshot fails to execute and
the close error is operational, hence not connection-fatal; sendBatch
returns the close error without recording anything in the response error
arrays, refuting the claim that it appends an entry and returns nil. -/
theorem claim_C6_counterexample :
    isConnFatal "read timeout" = false
  ∧ sendBatch exC6Db [exC6Item] (NewBatchWithRetry NewDAO)
      = (NewBatchWithRetry NewDAO, BatchOutcome.err "read timeout") := by
  decide

/-- Claim C6 (amended): when a dispatched snapshot of exactly one item
fails to execute, the close of the batch result succeeds, and the item
carries one of the five per-row actions, sendBatch appends exactly one
entry to the response error array selected by the action, carrying the
uid of the enqueued item and a non-empty message, leaves every other
error array unchanged, and returns nil. -/
theorem claim_C6_single_row_error_amended :
    ∀ (db : List BatchItem → DBResult) (item : BatchItem) (b : BatchWithRetry) (e : String),
      (db [item]).closeErr = none → (db [item]).execErr = some e →
      item.action ∈ perRowActions →
      (sendBatch db [item] b).2 = BatchOutcome.ok
      ∧ errorsOf (sendBatch db [item] b).1.syncResponse item.action
          = errorsOf b.syncResponse item.action
            ++ [{ resourceUID := item.uid, message := rowErrorMessage }]
      ∧ rowErrorMessage ≠ ""
      ∧ (∀ a ∈ perRowActions, a ≠ item.action →
          errorsOf (sendBatch db [item] b).1.syncResponse a = errorsOf b.syncResponse a) := by
  intro db item b e hce hee hmem
  rw [sendBatch_single db item b e hce hee]
  simp only [perRowActions, List.mem_cons, List.not_mem_nil, or_false] at hmem
  rcases hmem with h | h | h | h | h
  all_goals (
    rw [h]
    refine ⟨rfl, by simp [recordSyncError, errorsOf], by decide, ?_⟩
    intro a ha hne
    simp only [perRowActions, List.mem_cons, List.not_mem_nil, or_false] at ha
    rcases ha with h' | h' | h' | h' | h' <;>
      (subst h'; first | exact absurd rfl hne | simp [recordSyncError, errorsOf]))

/-- Witness for the amended claim C6: a failing deleteEdge statement
records its uid in deleteEdgeErrors and sendBatch returns nil. -/
theorem claim_C6_single_row_error_amended_witness :
    (sendBatch (fun _ => { execErr := some "bad row", closeErr := none })
        [{ query := "D", args := [], action := "deleteEdge", uid := "edge1" }]
        (NewBatchWithRetry NewDAO)).2 = BatchOutcome.ok
  ∧ errorsOf (sendBatch (fun _ => { execErr := some "bad row", closeErr := none })
        [{ query := "D", args := [], action := "deleteEdge", uid := "edge1" }]
        (NewBatchWithRetry NewDAO)).1.syncResponse "deleteEdge"
      = [{ resourceUID := "edge1", message := rowErrorMessage }] := by
  have h := claim_C6_single_row_error_amended
    (fun _ => { execErr := some "bad row", closeErr := none })
    { query := "D", args := [], action := "deleteEdge", uid := "edge1" }
    (NewBatchWithRetry NewDAO) "bad row" rfl rfl (by decide)
  exact ⟨h.1, h.2.1⟩

/-- Claim C10: the single-item failure branch panics (nil error-array
pointer dereference) precisely when the failing item carries an action
outside the five per-row actions, for instance a bulkResources or
bulkInsertEdges item produced by grouping. -/
theorem claim_C10_single_branch_nil_deref :
    ∀ (db : List BatchItem → DBResult) (item : BatchItem) (b : BatchWithRetry) (e : String),
      (db [item]).closeErr = none → (db [item]).execErr = some e →
      ((sendBatch db [item] b).2 = BatchOutcome.panicked ↔ item.action ∉ perRowActions) := by
  intro db item b e hce hee
  rw [sendBatch_single db item b e hce hee]
  cases hrec : recordSyncError b.syncResponse item.action item.uid with
  | some r =>
    simp only [hrec]
    constructor
    · intro h
      exact absurd h (by simp)
    · intro hnot
      exact absurd ((recordSyncError_eq_none_iff b.syncResponse item.action item.uid).mpr hnot)
        (by simp [hrec])
  | none =>
    simp only [hrec]
    constructor
    · intro _
      exact (recordSyncError_eq_none_iff b.syncResponse item.action item.uid).mp hrec
    · intro _
      trivial

/-- Witness for claim C10: a failing single bulkResources item makes
sendBatch panic. -/
theorem claim_C10_single_branch_nil_deref_witness :
    (sendBatch (fun _ => { execErr := some "syntax error", closeErr := none })
        [{ query := "INSERT INTO search.resources VALUES (1)", args := []
         , action := "bulkResources", uid := "" }]
        (NewBatchWithRetry NewDAO)).2 = BatchOutcome.panicked := by
  have h := claim_C10_single_branch_nil_deref
    (fun _ => { execErr := some "syntax error", closeErr := none })
    { query := "INSERT INTO search.resources VALUES (1)", args := []
    , action := "bulkResources", uid := "" }
    (NewBatchWithRetry NewDAO) "syntax error" rfl rfl
  exact h.mpr (by decide)

/-- Claim C7: addResource items accumulate in resourceInsertQ and are
emitted as one bulkResources multi-row INSERT INTO search.resources
exactly when the accumulator reaches batchSize (default 500), emptying
it; addEdge items symmetrically become one bulkInsertEdges statement;
every other action appends one batch item per call; flush materializes
residual accumulated inserts into bulk items before dispatching the
final snapshot. -/
theorem claim_C7_bulk_grouping :
    NewDAO.batchSize = 500
  ∧ (∀ (b : BatchWithRetry) (item : BatchItem),
      b.connError = none → item.action = "addResource" →
      ((b.resourceInsertQ ++ [item.args]).length < b.batchSize →
        (Queue b item).1.resourceInsertQ = b.resourceInsertQ ++ [item.args]
        ∧ allItems (Queue b item).1 = allItems b)
      ∧ (b.batchSize ≤ (b.resourceInsertQ ++ [item.args]).length →
        (Queue b item).1.resourceInsertQ = []
        ∧ allItems (Queue b item).1
            = allItems b ++ [bulkResourcesItemQ (b.resourceInsertQ ++ [item.args])])
      ∧ (Queue b item).1.edgeInsertQ = b.edgeInsertQ)
  ∧ (∀ (b : BatchWithRetry) (item : BatchItem),
      b.connError = none → item.action = "addEdge" →
      ((b.edgeInsertQ ++ [item.args]).length < b.batchSize →
        (Queue b item).1.edgeInsertQ = b.edgeInsertQ ++ [item.args]
        ∧ allItems (Queue b item).1 = allItems b)
      ∧ (b.batchSize ≤ (b.edgeInsertQ ++ [item.args]).length →
        (Queue b item).1.edgeInsertQ = []
        ∧ allItems (Queue b item).1
            = allItems b ++ [bulkEdgesItemQ (b.edgeInsertQ ++ [item.args])])
      ∧ (Queue b item).1.resourceInsertQ = b.resourceInsertQ)
  ∧ (∀ (b : BatchWithRetry) (item : BatchItem),
      b.connError = none → item.action ≠ "addResource" → item.action ≠ "addEdge" →
      allItems (Queue b item).1 = allItems b ++ [item]
      ∧ (Queue b item).1.resourceInsertQ = b.resourceInsertQ
      ∧ (Queue b item).1.edgeInsertQ = b.edgeInsertQ)
  ∧ (∀ q : List (List String),
      (bulkResourcesItemQ q).action = "bulkResources"
      ∧ (bulkResourcesItemQ q).query
          = "INSERT INTO search.resources VALUES "
            ++ String.intercalate ", " (q.map fmtRowResQ) ++ ";")
  ∧ (∀ q : List (List String),
      (bulkEdgesItemQ q).action = "bulkInsertEdges"
      ∧ (bulkEdgesItemQ q).query
          = "INSERT INTO search.edges VALUES "
            ++ String.intercalate "," (q.map fmtRowEdgeQ) ++ ";")
  ∧ (∀ b : BatchWithRetry,
      (flush b).resourceInsertQ = []
      ∧ (flush b).edgeInsertQ = []
      ∧ (flush b).items = []
      ∧ allItems (flush b)
          = allItems b
            ++ (if 0 < b.resourceInsertQ.length then [bulkResourcesItemF b.resourceInsertQ] else [])
            ++ (if 0 < b.edgeInsertQ.length then [bulkEdgesItemF b.edgeInsertQ] else [])) := by
  refine ⟨rfl, ?_, ?_, ?_, fun q => ⟨rfl, rfl⟩, fun q => ⟨rfl, rfl⟩, ?_⟩
  · intro b item hconn hact
    refine ⟨?_, ?_, ?_⟩
    · intro hlt
      have hnot : ¬ b.batchSize ≤ (b.resourceInsertQ ++ [item.args]).length :=
        Nat.not_le_of_lt hlt
      simp only [Queue, hconn]
      rw [if_pos hact, if_neg hnot]
      exact ⟨dispatchCheck_resourceInsertQ _, allItems_dispatchCheck _⟩
    · intro hle
      simp only [Queue, hconn]
      rw [if_pos hact, if_pos hle]
      refine ⟨dispatchCheck_resourceInsertQ _, ?_⟩
      rw [allItems_dispatchCheck]
      simp [allItems]
    · simp only [Queue, hconn]
      rw [if_pos hact]
      split <;> exact dispatchCheck_edgeInsertQ _
  · intro b item hconn hact
    have hne : item.action ≠ "addResource" := by rw [hact]; decide
    refine ⟨?_, ?_, ?_⟩
    · intro hlt
      have hnot : ¬ b.batchSize ≤ (b.edgeInsertQ ++ [item.args]).length :=
        Nat.not_le_of_lt hlt
      simp only [Queue, hconn]
      rw [if_neg hne, if_pos hact, if_neg hnot]
      exact ⟨dispatchCheck_edgeInsertQ _, allItems_dispatchCheck _⟩
    · intro hle
      simp only [Queue, hconn]
      rw [if_neg hne, if_pos hact, if_pos hle]
      refine ⟨dispatchCheck_edgeInsertQ _, ?_⟩
      rw [allItems_dispatchCheck]
      simp [allItems]
    · simp only [Queue, hconn]
      rw [if_neg hne, if_pos hact]
      split <;> exact dispatchCheck_resourceInsertQ _
  · intro b item hconn hne1 hne2
    simp only [Queue, hconn]
    rw [if_neg hne1, if_neg hne2]
    refine ⟨?_, dispatchCheck_resourceInsertQ _, dispatchCheck_edgeInsertQ _⟩
    rw [allItems_dispatchCheck]
    simp [allItems]
  · intro b
    refine ⟨?_, ?_, ?_, ?_⟩ <;>
      (simp only [flush, allItems]
       split <;> split <;> (try split) <;>
         simp_all [List.flatten_append, List.length_eq_zero])

/-- An engine state with batchSize one, so that bulk grouping triggers on
the first accumulated insert. -/
def exC7B : BatchWithRetry :=
  { NewBatchWithRetry NewDAO with batchSize := 1 }

/-- A concrete addResource item. -/
def exC7ItemR : BatchItem :=
  { query := "INSERT INTO search.resources VALUES ($1,$2,$3)", args := ["u", "c", "d"]
  , action := "addResource", uid := "u" }

/-- Witness for claim C7: with batchSize one, queuing one addResource
item empties the accumulator and emits one bulkResources statement. -/
theorem claim_C7_bulk_grouping_witness :
    (Queue exC7B exC7ItemR).1.resourceInsertQ = []
  ∧ allItems (Queue exC7B exC7ItemR).1
      = allItems exC7B ++ [bulkResourcesItemQ (exC7B.resourceInsertQ ++ [exC7ItemR.args])] := by
  exact (claim_C7_bulk_grouping.2.1 exC7B exC7ItemR rfl rfl).2.1 (by decide)

/-
Request limiter (pkg/server/requestLimiter.go).  The requestTracker map
from cluster name to the time the request was received is modelled as an
association list; Go map lookup, assignment and delete are alookup,
asetKey and aeraseKey.
-/

/-- Go map lookup on an association list. -/
def alookup {α : Type} (k : String) : List (String × α) → Option α
  | [] => none
  | (k', v) :: rest => if k' = k then some v else alookup k rest

/-- Go map delete on an association list. -/
def aeraseKey {α : Type} (k : String) (l : List (String × α)) : List (String × α) :=
  l.filter (fun p => !(p.1 = k : Bool))

/-- Go map assignment on an association list. -/
def asetKey {α : Type} (k : String) (v : α) (l : List (String × α)) : List (String × α) :=
  (k, v) :: aeraseKey k l

/-- Looking up a deleted key yields nothing. -/
theorem alookup_aeraseKey {α : Type} (k : String) (l : List (String × α)) :
    alookup k (aeraseKey k l) = none := by
  induction l with
  | nil => rfl
  | cons p rest ih =>
    by_cases h : p.1 = k
    · simpa [aeraseKey, h] using ih
    · simpa [aeraseKey, alookup, h] using ih

/-- The decision of the limiter middleware on an incoming request. -/
inductive LimiterDecision where
  | reject (status : Nat) (body : String)
  | admitted
deriving DecidableEq, Repr

/-- Rejection body when this cluster already has an in-flight request. -/
def busyBody : String :=
  "A previous request from this cluster is processing, retry later."

/-- Rejection body when the global request limit is reached. -/
def capBody : String :=
  "Indexer has too many pending requests, retry later."

/-- The admission decision of requestLimiterMiddleware from
requestLimiter.go: requestCount and the per-cluster lookup are read,
then the two rejection rules are applied in order. -/
def requestLimiterDecision (tracker : List (String × Nat)) (requestLimit : Nat)
    (clusterName : String) : LimiterDecision :=
  match alookup clusterName tracker with
  | some _ => LimiterDecision.reject 429 busyBody
  | none =>
    if requestLimit ≤ tracker.length ∧ clusterName ≠ "local-cluster" then
      LimiterDecision.reject 429 capBody
    else LimiterDecision.admitted

/-- How the handler invocation ends: a normal return or a panic while
processing the request. -/
inductive HandlerExit where
  | normal
  | panicked
deriving DecidableEq, Repr

/-- The tracker visible to the handler of an admitted request, after the
middleware stored clusterName with the arrival time. -/
def trackerDuringRequest (tracker : List (String × Nat)) (clusterName : String)
    (now : Nat) : List (String × Nat) :=
  asetKey clusterName now tracker

/-- The tracker at exit of an admitted request: the deferred delete of
the clusterName entry runs on every exit path, normal or panicking. -/
def trackerAtExit (tracker : List (String × Nat)) (clusterName : String)
    (now : Nat) (exit : HandlerExit) : List (String × Nat) :=
  match exit with
  | HandlerExit.normal => aeraseKey clusterName (trackerDuringRequest tracker clusterName now)
  | HandlerExit.panicked => aeraseKey clusterName (trackerDuringRequest tracker clusterName now)

/-- Claim C4: the limiter applies its rules in order: a cluster with an
in-flight request is rejected 429 busy; otherwise a full tracker rejects
429 cap unless the cluster is local-cluster; otherwise the request is
admitted, so local-cluster is never rejected by the global cap. -/
theorem claim_C4_limiter_rules :
    ∀ (tracker : List (String × Nat)) (requestLimit : Nat) (clusterName : String),
      ((alookup clusterName tracker).isSome →
        requestLimiterDecision tracker requestLimit clusterName
          = LimiterDecision.reject 429 busyBody)
      ∧ (alookup clusterName tracker = none → requestLimit ≤ tracker.length →
          clusterName ≠ "local-cluster" →
          requestLimiterDecision tracker requestLimit clusterName
            = LimiterDecision.reject 429 capBody)
      ∧ (alookup clusterName tracker = none →
          (tracker.length < requestLimit ∨ clusterName = "local-cluster") →
          requestLimiterDecision tracker requestLimit clusterName
            = LimiterDecision.admitted)
      ∧ (clusterName = "local-cluster" →
          requestLimiterDecision tracker requestLimit clusterName
            ≠ LimiterDecision.reject 429 capBody) := by
  intro tracker requestLimit clusterName
  refine ⟨?_, ?_, ?_, ?_⟩
  · intro h
    cases hl : alookup clusterName tracker with
    | none => rw [hl] at h; exact absurd h (by simp)
    | some t => simp [requestLimiterDecision, hl]
  · intro hl hfull hlocal
    simp [requestLimiterDecision, hl, hfull, hlocal]
  · intro hl hroom
    cases hroom with
    | inl h => simp [requestLimiterDecision, hl, Nat.not_le_of_lt h]
    | inr h => subst h; simp [requestLimiterDecision, hl]
  · intro h
    subst h
    cases hl : alookup "local-cluster" tracker with
    | none => simp [requestLimiterDecision, hl, busyBody, capBody]
    | some t => simp [requestLimiterDecision, hl, busyBody, capBody]

/-- Witness for claim C4 at concrete inputs: a busy cluster is rejected,
a full tracker rejects others, and local-cluster passes the cap. -/
theorem claim_C4_limiter_rules_witness :
    requestLimiterDecision [("cluster-a", 5)] 1 "cluster-a"
        = LimiterDecision.reject 429 busyBody
  ∧ requestLimiterDecision [("cluster-a", 5)] 1 "cluster-b"
        = LimiterDecision.reject 429 capBody
  ∧ requestLimiterDecision [("cluster-a", 5)] 1 "local-cluster"
        = LimiterDecision.admitted := by
  refine ⟨?_, ?_, ?_⟩
  · exact (claim_C4_limiter_rules [("cluster-a", 5)] 1 "cluster-a").1 (by decide)
  · exact (claim_C4_limiter_rules [("cluster-a", 5)] 1 "cluster-b").2.1 rfl
      (by decide) (by decide)
  · exact (claim_C4_limiter_rules [("cluster-a", 5)] 1 "local-cluster").2.2.1 rfl
      (Or.inr rfl)

/-- Claim C5: for every admitted request the limiter inserts the cluster
entry before running the handler, and on every exit path, normal or
panicking, the deferred delete leaves no entry for that cluster. -/
theorem claim_C5_tracker_cleanup :
    ∀ (tracker : List (String × Nat)) (clusterName : String) (now : Nat) (exit : HandlerExit),
      alookup clusterName (trackerDuringRequest tracker clusterName now) = some now
      ∧ alookup clusterName (trackerAtExit tracker clusterName now exit) = none := by
  intro tracker clusterName now exit
  constructor
  · simp [trackerDuringRequest, asetKey, alookup]
  · cases exit <;> exact alookup_aeraseKey clusterName _

/-
Cluster lifecycle: the cascade-delete transaction and the delete
dispatch.  The historical DeleteClusterTxn revision runs three DELETE
statements in one transaction; its control flow is modelled as a
function from the per-statement results to the trace of transaction
operations it performs and the error it returns.
-/

/-- The operations the historical DeleteClusterTxn performs on its
transaction, in order. -/
inductive TxOp where
  | execDeleteResources
  | execDeleteEdges
  | execDeleteClusterNode
  | rollback
  | commit
deriving DecidableEq, Repr

/-- Trace and returned error of one DeleteClusterTxn call. -/
structure TxnRun where
  ops : List TxOp
  ret : Option String
deriving DecidableEq, Repr

/-- The historical DeleteClusterTxn: DELETE resources WHERE cluster,
DELETE edges WHERE cluster, DELETE the cluster node row WHERE uid, then
commit; checkErrorAndRollback rolls back on every statement error, but
the cluster-node branch additionally calls tx.Commit after the rollback
before returning the error.  Parameters are the results of BeginTx, the
three statements and the final commit (none means success). -/
def DeleteClusterTxnOld (beginErr r1 r2 r3 commitErr : Option String) : TxnRun :=
  match beginErr with
  | some e => { ops := [], ret := some e }
  | none =>
    match r1 with
    | some e => { ops := [TxOp.execDeleteResources, TxOp.rollback], ret := some e }
    | none =>
      match r2 with
      | some e =>
        { ops := [TxOp.execDeleteResources, TxOp.execDeleteEdges, TxOp.rollback]
        , ret := some e }
      | none =>
        match r3 with
        | some e =>
          { ops := [TxOp.execDeleteResources, TxOp.execDeleteEdges,
              TxOp.execDeleteClusterNode, TxOp.rollback, TxOp.commit]
          , ret := some e }
        | none =>
          match commitErr with
          | some e =>
            { ops := [TxOp.execDeleteResources, TxOp.execDeleteEdges,
                TxOp.execDeleteClusterNode, TxOp.commit, TxOp.rollback]
            , ret := some e }
          | none =>
            { ops := [TxOp.execDeleteResources, TxOp.execDeleteEdges,
                TxOp.execDeleteClusterNode, TxOp.commit]
            , ret := none }

/-- The backoff before retry attempt number retry of the cluster delete,
in milliseconds, from deleteWithRetry: min(retry*500, MaxBackoffMS). -/
def deleteRetryWaitMS (retry maxBackoffMS : Nat) : Nat :=
  min (retry * 500) maxBackoffMS

/-- Claim C2 evidence: when the two cluster-scoped DELETE statements
succeed but the cluster-node DELETE errors, the historical
DeleteClusterTxn rolls the transaction back and then still issues a
commit before returning the error, contradicting the policy that the
transaction is never committed after an error. -/
theorem claim_C2_commit_after_error :
    DeleteClusterTxnOld none none none (some "node delete failed") none
      = { ops := [TxOp.execDeleteResources, TxOp.execDeleteEdges,
            TxOp.execDeleteClusterNode, TxOp.rollback, TxOp.commit]
        , ret := some "node delete failed" }
  ∧ TxOp.commit ∈ (DeleteClusterTxnOld none none none (some "node delete failed") none).ops
  ∧ deleteRetryWaitMS 3 1000 = 1000 := by
  refine ⟨rfl, by decide, rfl⟩

/-- One externally visible effect of the cluster delete processing. -/
inductive ClusterEffect where
  | cascadeDelete (cluster : String)
  | deleteNodeRow (uid : String)
  | evictCache (uid : String)
deriving DecidableEq, Repr

/-- DeleteClusterAndResources from upsertCluster.go: always cascade
delete the resources and edges of the cluster via deleteWithRetry (which
loops until the transaction succeeds and always returns nil); when
deleteClusterNode is set, additionally delete the cluster__name row and
evict the clusters-cache entry. -/
def DeleteClusterAndResources (clusterName : String) (deleteClusterNode : Bool) :
    List ClusterEffect :=
  [ClusterEffect.cascadeDelete clusterName]
    ++ (if deleteClusterNode then
          [ClusterEffect.deleteNodeRow ("cluster__" ++ clusterName)
          , ClusterEffect.evictCache ("cluster__" ++ clusterName)]
        else [])

/-- Modelled from the spec: processClusterDelete of pkg/clustersync is
absent from the sources (only its tests reference it); following spec
section 4.4, the delete handler acts only on ManagedCluster and on a
ManagedClusterAddOn named search-collector, never on ManagedClusterInfo;
only for ManagedCluster it also deletes the cluster node row and evicts
the cache entry.  For an add-on the owning cluster is the object
namespace; for a ManagedCluster it is the object name. -/
def processClusterDelete (kind objNamespace objName : String) : List ClusterEffect :=
  if kind = "ManagedCluster" then
    DeleteClusterAndResources objName true
  else if kind = "ManagedClusterAddOn" ∧ objName = "search-collector" then
    DeleteClusterAndResources objNamespace false
  else []

/-- Claim C8: cascade delete happens only for a ManagedCluster or a
ManagedClusterAddOn named search-collector and never for a
ManagedClusterInfo; the cluster node row is deleted and the cache entry
evicted if and only if the object is a ManagedCluster. -/
theorem claim_C8_delete_dispatch :
    ∀ kind objNamespace objName : String,
      ((∃ c, ClusterEffect.cascadeDelete c ∈ processClusterDelete kind objNamespace objName)
          ↔ (kind = "ManagedCluster"
              ∨ (kind = "ManagedClusterAddOn" ∧ objName = "search-collector")))
      ∧ (kind = "ManagedClusterInfo" → processClusterDelete kind objNamespace objName = [])
      ∧ (kind = "ManagedCluster" →
          processClusterDelete kind objNamespace objName
            = [ClusterEffect.cascadeDelete objName
              , ClusterEffect.deleteNodeRow ("cluster__" ++ objName)
              , ClusterEffect.evictCache ("cluster__" ++ objName)])
      ∧ (kind = "ManagedClusterAddOn" → objName = "search-collector" →
          processClusterDelete kind objNamespace objName
            = [ClusterEffect.cascadeDelete objNamespace])
      ∧ (∀ u, ClusterEffect.deleteNodeRow u ∈ processClusterDelete kind objNamespace objName
            ↔ (kind = "ManagedCluster" ∧ u = "cluster__" ++ objName))
      ∧ (∀ u, ClusterEffect.evictCache u ∈ processClusterDelete kind objNamespace objName
            ↔ (kind = "ManagedCluster" ∧ u = "cluster__" ++ objName)) := by
  intro kind objNamespace objName
  by_cases hmc : kind = "ManagedCluster"
  · subst hmc
    refine ⟨?_, ?_, ?_, ?_, ?_, ?_⟩
    · simp [processClusterDelete, DeleteClusterAndResources]
    · intro h; exact absurd h (by decide)
    · intro _; simp [processClusterDelete, DeleteClusterAndResources]
    · intro h; exact absurd h (by decide)
    · intro u
      simp [processClusterDelete, DeleteClusterAndResources]
    · intro u
      simp [processClusterDelete, DeleteClusterAndResources]
  · by_cases haddon : kind = "ManagedClusterAddOn" ∧ objName = "search-collector"
    · obtain ⟨hk, hn⟩ := haddon
      subst hk; subst hn
      refine ⟨?_, ?_, ?_, ?_, ?_, ?_⟩
      · simp [processClusterDelete, DeleteClusterAndResources, hmc]
      · intro h; exact absurd h (by decide)
      · intro h; exact absurd h hmc
      · intro _ _; simp [processClusterDelete, DeleteClusterAndResources, hmc]
      · intro u
        simp [processClusterDelete, DeleteClusterAndResources, hmc]
      · intro u
        simp [processClusterDelete, DeleteClusterAndResources, hmc]
    · have hempty : processClusterDelete kind objNamespace objName = [] := by
        simp [processClusterDelete, hmc, haddon]
      refine ⟨?_, fun _ => hempty, fun h => absurd h hmc, ?_, ?_, ?_⟩
      · rw [hempty]
        simp only [List.not_mem_nil]
        constructor
        · intro ⟨c, hc⟩; exact hc.elim
        · intro h
          rcases h with h | h
          · exact absurd h hmc
          · exact absurd h haddon
      · intro hk hn; exact absurd ⟨hk, hn⟩ haddon
      · intro u
        rw [hempty]
        simp only [List.not_mem_nil, false_iff]
        intro ⟨h, _⟩; exact hmc h
      · intro u
        rw [hempty]
        simp only [List.not_mem_nil, false_iff]
        intro ⟨h, _⟩; exact hmc h

/-- Witness for claim C8: a ManagedCluster delete cascades and removes
the node row and cache entry, a search-collector add-on delete only
cascades, a ManagedClusterInfo delete does nothing. -/
theorem claim_C8_delete_dispatch_witness :
    processClusterDelete "ManagedCluster" "" "name-foo"
        = [ClusterEffect.cascadeDelete "name-foo"
          , ClusterEffect.deleteNodeRow "cluster__name-foo"
          , ClusterEffect.evictCache "cluster__name-foo"]
  ∧ processClusterDelete "ManagedClusterAddOn" "name-foo" "search-collector"
        = [ClusterEffect.cascadeDelete "name-foo"]
  ∧ processClusterDelete "ManagedClusterInfo" "" "name-foo" = [] := by
  refine ⟨?_, ?_, ?_⟩
  · exact (claim_C8_delete_dispatch "ManagedCluster" "" "name-foo").2.2.1 rfl
  · exact (claim_C8_delete_dispatch "ManagedClusterAddOn" "name-foo"
      "search-collector").2.2.2.1 rfl rfl
  · exact (claim_C8_delete_dispatch "ManagedClusterInfo" "" "name-foo").2.1 rfl

/-
Cluster metadata upsert (pkg/database/upsertCluster.go).  The clusters
cache maps cluster UIDs to a cached data value; a cached value is either
a string-keyed properties map (the Go cast to map[string]interface{}
succeeds) or some other value.  Property values come from an arbitrary
type with decidable equality, modelling reflect.DeepEqual on the values.
-/

/-- A value stored in the clusters cache. -/
inductive CacheData (V : Type) where
  | mapData (props : List (String × V))
  | otherData
deriving DecidableEq

/-- The keys of an association list. -/
def keysOf {α : Type} (l : List (String × α)) : List String :=
  l.map Prod.fst

/-- A lookup succeeds exactly on the stored keys. -/
theorem alookup_isSome_iff {α : Type} (k : String) (l : List (String × α)) :
    (alookup k l).isSome = true ↔ k ∈ keysOf l := by
  induction l with
  | nil => simp [alookup, keysOf]
  | cons p rest ih =>
    by_cases h : p.1 = k
    · simp [alookup, keysOf, h]
    · simp only [alookup, keysOf, List.map_cons, List.mem_cons, if_neg h]
      rw [show keysOf rest = rest.map Prod.fst from rfl] at ih
      rw [ih]
      constructor
      · intro hm
        exact Or.inr hm
      · intro hm
        rcases hm with he | hm
        · exact absurd he.symm h
        · exact hm

/-- A lookup fails exactly off the stored keys. -/
theorem alookup_eq_none_iff {α : Type} (k : String) (l : List (String × α)) :
    alookup k l = none ↔ k ∉ keysOf l := by
  rw [← alookup_isSome_iff]
  cases alookup k l <;> simp

/-- A successful lookup returns a stored pair. -/
theorem alookup_mem {α : Type} (k : String) (v : α) (l : List (String × α)) :
    alookup k l = some v → (k, v) ∈ l := by
  induction l with
  | nil => intro h; exact absurd h (by simp [alookup])
  | cons p rest ih =>
    intro h
    by_cases hp : p.1 = k
    · rw [alookup, if_pos hp] at h
      have : p.2 = v := Option.some.inj h
      have hpk : p = (k, v) := by
        cases p
        simp_all
      rw [← hpk]
      exact List.mem_cons_self p rest
    · rw [alookup, if_neg hp] at h
      exact List.mem_cons_of_mem _ (ih h)

/-- With nodup keys, every stored pair is found by lookup. -/
theorem alookup_of_mem_nodup {α : Type} (k : String) (v : α) (l : List (String × α))
    (hn : (keysOf l).Nodup) (hm : (k, v) ∈ l) : alookup k l = some v := by
  induction l with
  | nil => exact absurd hm (List.not_mem_nil _)
  | cons p rest ih =>
    rcases List.mem_cons.mp hm with he | hmem
    · rw [← he]
      simp [alookup]
    · have hn' : (p.1 :: keysOf rest).Nodup := hn
      have hp : p.1 ≠ k := by
        intro hk
        have hkmem : k ∈ keysOf rest := by
          simp only [keysOf, List.mem_map]
          exact ⟨(k, v), hmem, rfl⟩
        have := (List.nodup_cons.mp hn').1
        rw [hk] at this
        exact this hkmem
      rw [alookup, if_neg hp]
      exact ih (List.nodup_cons.mp hn').2 hmem

/-- Two association lists with nodup keys and identical lookups have the
same length. -/
theorem length_eq_of_lookup_eq {α : Type} (l₁ l₂ : List (String × α))
    (h₁ : (keysOf l₁).Nodup) (h₂ : (keysOf l₂).Nodup)
    (hext : ∀ k, alookup k l₁ = alookup k l₂) : l₁.length = l₂.length := by
  have hmem : ∀ k, k ∈ keysOf l₁ ↔ k ∈ keysOf l₂ := by
    intro k
    rw [← alookup_isSome_iff, ← alookup_isSome_iff, hext k]
  have hperm : List.Perm (keysOf l₁) (keysOf l₂) :=
    (List.perm_ext_iff_of_nodup h₁ h₂).mpr hmem
  have := hperm.length_eq
  simpa [keysOf] using this

/-- Two nodup lists with a subset relation and no smaller length have the
same members. -/
theorem mem_iff_of_subset_of_le_length {l₁ l₂ : List String}
    (h₁ : l₁.Nodup) (h₂ : l₂.Nodup) (hsub : ∀ a, a ∈ l₁ → a ∈ l₂)
    (hlen : l₂.length ≤ l₁.length) : ∀ a, a ∈ l₁ ↔ a ∈ l₂ := by
  have hsubF : l₁.toFinset ⊆ l₂.toFinset := by
    intro a ha
    exact List.mem_toFinset.mpr (hsub a (List.mem_toFinset.mp ha))
  have hc1 : l₁.toFinset.card = l₁.length := List.toFinset_card_of_nodup h₁
  have hc2 : l₂.toFinset.card = l₂.length := List.toFinset_card_of_nodup h₂
  have heq : l₁.toFinset = l₂.toFinset :=
    Finset.eq_of_subset_of_card_le hsubF (by omega)
  intro a
  rw [← List.mem_toFinset, ← List.mem_toFinset, heq]

/-- The properties comparison of clusterPropsUpToDate, characterized:
with nodup keys on both sides, the length check plus the per-key lookup
and deep-equality check hold exactly when both maps have identical
lookups everywhere. -/
theorem propsCheck_iff {V : Type} [DecidableEq V] (m props : List (String × V))
    (hm : (keysOf m).Nodup) (hp : (keysOf props).Nodup) :
    ((m.length == props.length)
        && props.all (fun kv => decide (alookup kv.1 m = some kv.2))) = true
      ↔ ∀ k, alookup k m = alookup k props := by
  constructor
  · intro h
    rw [Bool.and_eq_true] at h
    obtain ⟨hlen, hall⟩ := h
    have hlen' : m.length = props.length := beq_iff_eq.mp hlen
    have hall' : ∀ kv ∈ props, alookup kv.1 m = some kv.2 := by
      intro kv hkv
      exact of_decide_eq_true (List.all_eq_true.mp hall kv hkv)
    have hsub : ∀ a, a ∈ keysOf props → a ∈ keysOf m := by
      intro a ha
      obtain ⟨kv, hkv, hfst⟩ := List.mem_map.mp ha
      have hsome : (alookup a m).isSome = true := by
        rw [← hfst, hall' kv hkv]
        rfl
      exact (alookup_isSome_iff a m).mp hsome
    have hkeyslen : (keysOf m).length ≤ (keysOf props).length := by
      simp [keysOf, hlen']
    have hmemiff := mem_iff_of_subset_of_le_length hp hm hsub hkeyslen
    intro k
    cases hk : alookup k props with
    | some v =>
      exact hall' (k, v) (alookup_mem k v props hk)
    | none =>
      have hknot : k ∉ keysOf props := (alookup_eq_none_iff k props).mp hk
      exact (alookup_eq_none_iff k m).mpr (fun hmm => hknot ((hmemiff k).mpr hmm))
  · intro hext
    rw [Bool.and_eq_true]
    refine ⟨?_, ?_⟩
    · exact beq_iff_eq.mpr (length_eq_of_lookup_eq m props hm hp hext)
    · refine List.all_eq_true.mpr ?_
      intro kv hkv
      refine decide_eq_true ?_
      rw [hext kv.1]
      exact alookup_of_mem_nodup kv.1 kv.2 props hp hkv

/-- clusterPropsUpToDate from upsertCluster.go: read the cache, cast the
cached value to a properties map, compare sizes, then compare every new
property against the cached one by deep equality. -/
def clusterPropsUpToDate {V : Type} [DecidableEq V] (cache : List (String × CacheData V))
    (clusterUID : String) (currProps : List (String × V)) : Bool :=
  match alookup clusterUID cache with
  | some (CacheData.mapData existingProps) =>
      (existingProps.length == currProps.length)
        && currProps.all (fun kv => decide (alookup kv.1 existingProps = some kv.2))
  | some CacheData.otherData => false
  | none => false

/-- clusterInDB from upsertCluster.go: consult the cache; on a miss,
query the resources row for the uid, merge every returned row into the
cache, and look again.  The database rows are an oracle parameter. -/
def clusterInDB {V : Type} (cache dbRows : List (String × CacheData V))
    (clusterUID : String) : List (String × CacheData V) × Bool :=
  match alookup clusterUID cache with
  | some _ => (cache, true)
  | none =>
    let cache1 := dbRows.foldl (fun c r => asetKey r.1 r.2 c) cache
    (cache1, (alookup clusterUID cache1).isSome)

/-- The boolean returned by clusterInDB is the success of the lookup in
the cache it returns. -/
theorem clusterInDB_snd {V : Type} (cache dbRows : List (String × CacheData V))
    (uid : String) :
    (clusterInDB cache dbRows uid).2
      = (alookup uid (clusterInDB cache dbRows uid).1).isSome := by
  unfold clusterInDB
  cases h : alookup uid cache with
  | some d => simp [h]
  | none => simp

/-- UpsertCluster from upsertCluster.go: consult the cache (refreshing it
from the database on a miss), and execute the INSERT ... ON CONFLICT
(uid) DO UPDATE statement unless the cluster is present with up-to-date
properties; on a successful write, store the new properties in the
cache.  execOk is the result of pool.Exec; the returned boolean records
whether the write was executed. -/
def UpsertCluster {V : Type} [DecidableEq V] (cache dbRows : List (String × CacheData V))
    (clusterUID : String) (props : List (String × V)) (execOk : Bool) :
    List (String × CacheData V) × Bool :=
  if !(clusterInDB cache dbRows clusterUID).2
      || !clusterPropsUpToDate (clusterInDB cache dbRows clusterUID).1 clusterUID props then
    if execOk then
      (asetKey clusterUID (CacheData.mapData props) (clusterInDB cache dbRows clusterUID).1, true)
    else ((clusterInDB cache dbRows clusterUID).1, true)
  else ((clusterInDB cache dbRows clusterUID).1, false)

/-- Well-formedness of a cache entry: a cached properties map has nodup
keys (Go maps cannot repeat keys). -/
def wfEntry {V : Type} : Option (CacheData V) → Bool
  | some (CacheData.mapData m) => decide ((keysOf m).Nodup)
  | _ => true

/-- Claim C9: UpsertCluster executes the INSERT ... ON CONFLICT(uid) DO
UPDATE statement iff, after consulting the database on a cache miss, the
UID is absent from the cluster cache or the cached entry differs from
the new properties under deep equality (including a non-map cached value
or a differing key count); the cache receives the new properties only
after a successful write, and otherwise the write is skipped and the
cache is unchanged by the upsert. -/
theorem claim_C9_upsert_write_iff {V : Type} [DecidableEq V]
    (cache dbRows : List (String × CacheData V)) (uid : String)
    (props : List (String × V)) (execOk : Bool)
    (hp : (keysOf props).Nodup)
    (hwf : wfEntry (alookup uid (clusterInDB cache dbRows uid).1) = true) :
    ((UpsertCluster cache dbRows uid props execOk).2 = true
        ↔ ¬ ∃ m, alookup uid (clusterInDB cache dbRows uid).1
                = some (CacheData.mapData m)
            ∧ ∀ k, alookup k m = alookup k props)
    ∧ (execOk = true → (UpsertCluster cache dbRows uid props execOk).2 = true →
        (UpsertCluster cache dbRows uid props execOk).1
          = asetKey uid (CacheData.mapData props) (clusterInDB cache dbRows uid).1)
    ∧ (execOk = false →
        (UpsertCluster cache dbRows uid props execOk).1
          = (clusterInDB cache dbRows uid).1)
    ∧ ((UpsertCluster cache dbRows uid props execOk).2 = false →
        (UpsertCluster cache dbRows uid props execOk).1
          = (clusterInDB cache dbRows uid).1) := by
  have hkey : ((clusterInDB cache dbRows uid).2 = true
        ∧ clusterPropsUpToDate (clusterInDB cache dbRows uid).1 uid props = true)
      ↔ ∃ m, alookup uid (clusterInDB cache dbRows uid).1 = some (CacheData.mapData m)
          ∧ ∀ k, alookup k m = alookup k props := by
    constructor
    · rintro ⟨hin, hup⟩
      unfold clusterPropsUpToDate at hup
      cases hl : alookup uid (clusterInDB cache dbRows uid).1 with
      | none =>
        rw [hl] at hup
        exact absurd hup (by simp)
      | some d =>
        cases d with
        | otherData =>
          rw [hl] at hup
          exact absurd hup (by simp)
        | mapData m =>
          rw [hl] at hup
          rw [hl] at hwf
          have hm : (keysOf m).Nodup := of_decide_eq_true hwf
          exact ⟨m, rfl, (propsCheck_iff m props hm hp).mp hup⟩
    · rintro ⟨m, hl, hext⟩
      rw [hl] at hwf
      have hm : (keysOf m).Nodup := of_decide_eq_true hwf
      constructor
      · rw [clusterInDB_snd, hl]
        rfl
      · unfold clusterPropsUpToDate
        rw [hl]
        exact (propsCheck_iff m props hm hp).mpr hext
  cases hcond : (!(clusterInDB cache dbRows uid).2
      || !clusterPropsUpToDate (clusterInDB cache dbRows uid).1 uid props) with
  | true =>
    have hup : UpsertCluster cache dbRows uid props execOk
        = (if execOk then
            (asetKey uid (CacheData.mapData props) (clusterInDB cache dbRows uid).1, true)
           else ((clusterInDB cache dbRows uid).1, true)) := by
      unfold UpsertCluster
      rw [if_pos hcond]
    refine ⟨?_, ?_, ?_, ?_⟩
    · constructor
      · intro _ hex
        have hcontr := hkey.mpr hex
        rw [hcontr.1, hcontr.2] at hcond
        exact absurd hcond (by simp)
      · intro _
        rw [hup]
        cases execOk <;> simp
    · intro he _
      subst he
      rw [hup]
      simp
    · intro he
      subst he
      rw [hup]
      simp
    · intro hf
      rw [hup] at hf
      cases execOk <;> simp at hf
  | false =>
    have hup : UpsertCluster cache dbRows uid props execOk
        = ((clusterInDB cache dbRows uid).1, false) := by
      unfold UpsertCluster
      rw [if_neg (by rw [hcond]; simp)]
    have hand : (clusterInDB cache dbRows uid).2 = true
        ∧ clusterPropsUpToDate (clusterInDB cache dbRows uid).1 uid props = true := by
      have := hcond
      simp only [Bool.or_eq_false_iff, Bool.not_eq_false'] at this
      exact this
    refine ⟨?_, ?_, ?_, ?_⟩
    · constructor
      · intro hex
        rw [hup] at hex
        exact absurd hex (by simp)
      · intro hnex
        exact absurd (hkey.mp hand) hnex
    · intro _ hex
      rw [hup] at hex
      exact absurd hex (by simp)
    · intro _
      rw [hup]
    · intro _
      rw [hup]

/-- Concrete database row for the claim C9 witness. -/
def exC9Rows : List (String × CacheData String) :=
  [("cluster__c", CacheData.mapData [("name", "c")])]

/-- Concrete new properties for the claim C9 witness, deep-equal to the
cached entry. -/
def exC9Props : List (String × String) :=
  [("name", "c")]

/-- Witness for claim C9: with an empty cache, the database row is
merged in on the miss, the cached properties deep-equal the new ones, so
the write is skipped and the cache is unchanged by the upsert. -/
theorem claim_C9_upsert_write_iff_witness :
    (UpsertCluster [] exC9Rows "cluster__c" exC9Props true).2 = false
  ∧ (UpsertCluster [] exC9Rows "cluster__c" exC9Props true).1
      = (clusterInDB [] exC9Rows "cluster__c").1 := by
  have h := claim_C9_upsert_write_iff [] exC9Rows "cluster__c" exC9Props true
    (by decide) (by decide)
  have hfalse : (UpsertCluster [] exC9Rows "cluster__c" exC9Props true).2 = false := by
    cases hv : (UpsertCluster [] exC9Rows "cluster__c" exC9Props true).2 with
    | false => rfl
    | true =>
      exact absurd ⟨[("name", "c")], by decide, fun k => rfl⟩ (h.1.mp hv)
  exact ⟨hfalse, h.2.2.2 hfalse⟩

end SearchIndexer
